import Mathlib

/-!
# Xploreon circular cursor (`src/customcursor.js`)

A shallow embedding of the class `XploreonCircularCursor` and of `initCursor`.

* The instance fields (`this.cursor`, `this.mouseX`, ...), the part of the document the
  controller touches, the pending `setTimeout` callbacks and the page-global
  `window.XploreonCursor` are the fields of `State`.
* Every listener registered by `bindEvents` / `setupHoverEffects`, every timer callback and
  every public method is a function `State → Except JsError State`; `step` dispatches one
  `Event` to it.
* `this.cursor` may be `null`; reading a member of `null` is a `TypeError` (`member`).
  The source guards each access with `this.cursor && ...`, and the guard is kept as written.
* `Date.now()` is read twice by the `mousemove` listener (once in the test, once for the
  assignment to `lastTrailTime`): the event carries both readings.
-/

namespace XploreonCursor

/-! ## JavaScript values -/

/-- Exceptions a handler can raise. -/
inductive JsError
  | typeError
  deriving DecidableEq, Repr

/-- Member access `o.m` on a reference that may be `null`: a `TypeError` when it is `null`. -/
def member {α : Type} (o : Option α) : Except JsError α :=
  match o with
  | some v => Except.ok v
  | none => Except.error JsError.typeError

/-- A `style.left` / `style.top` value: never assigned, or the string `n + 'px'`. -/
inductive CssLength
  | unset
  | px (n : Int)
  deriving DecidableEq, Repr

/-- Method `classList.add(token)`: the token list is an ordered set. -/
def classListAdd (l : List String) (token : String) : List String :=
  if token ∈ l then l else l ++ [token]

/-- Method `classList.remove(tokens...)`. -/
def classListRemove (l : List String) (tokens : List String) : List String :=
  l.filter (fun c => !tokens.contains c)

/-! ## DOM elements -/

/-- The `div` built by `createCursor` (the marker). `inBody` tells whether its `parentNode`
is `document.body` (`true`) or `null` (`false`). -/
structure MarkerElement where
  classList : List String
  position : String
  zIndex : String
  pointerEvents : String
  opacity : String
  left : CssLength
  top : CssLength
  inBody : Bool
  deriving DecidableEq, Repr

/-- The `div` built by `createTrail`; `id` is the identity of the element object. -/
structure TrailElement where
  id : Nat
  className : String
  position : String
  left : CssLength
  top : CssLength
  transform : String
  pointerEvents : String
  zIndex : String
  deriving DecidableEq, Repr

/-- The part of the document the controller reads and writes. -/
structure Document where
  /-- number of elements matching `.xploreon-cursor` other than this controller's marker -/
  staleCursors : Nat
  /-- the elements matching `.cursor-trail`, in document order -/
  trails : List TrailElement
  /-- how many elements `createTrail` has created so far; the next one gets this number as
  its identity -/
  created : Nat
  deriving DecidableEq, Repr

/-- The callbacks handed to `setTimeout`. -/
inductive Timer
  /-- the 100 ms callback of `init` -/
  | init
  /-- the 600 ms callback of `createTrail`, closed over the trail element `id` -/
  | removeTrail (id : Nat)
  deriving DecidableEq, Repr

/-- What the page-global `window.XploreonCursor` holds. -/
inductive GlobalRef
  | undefined
  /-- a reference to the controller instance built by `initCursor` -/
  | controller
  deriving DecidableEq, Repr

/-- The controller instance together with the page state it acts on. -/
structure State where
  /-- Field `this.cursor`. -/
  cursor : Option MarkerElement
  /-- Field `this.mouseX`. -/
  mouseX : Int
  /-- Field `this.mouseY`. -/
  mouseY : Int
  /-- Field `this.isVisible`. -/
  isVisible : Bool
  /-- Field `this.trailEnabled`. -/
  trailEnabled : Bool
  /-- Field `this.lastTrailTime`. -/
  lastTrailTime : Int
  document : Document
  /-- pending `setTimeout` callbacks -/
  timers : List Timer
  /-- The global `window.XploreonCursor`. -/
  windowXploreonCursor : GlobalRef
  /-- Whether `window.showLoading` has been wrapped by `initCursor` -/
  showLoadingWrapped : Bool
  /-- Whether `window.hideLoading` has been wrapped by `initCursor` -/
  hideLoadingWrapped : Bool
  deriving DecidableEq, Repr

/-! ## Event targets and selectors -/

/-- One simple selector of a selector list. -/
inductive Selector
  /-- type selector, e.g. `button` -/
  | type (localName : String)
  /-- class selector, e.g. `.clickable` -/
  | cls (name : String)
  /-- attribute selector, e.g. `[role="button"]` -/
  | attrEq (attr value : String)
  deriving DecidableEq, Repr

/-- An HTML element as the hover listeners see it. -/
structure DomElement where
  /-- lower-case local name -/
  localName : String
  classList : List String
  attributes : List (String × String)
  /-- The value of `getComputedStyle(element).userSelect`. -/
  userSelect : String
  textContent : String
  deriving DecidableEq, Repr

/-- The `tagName` of an HTML element: its local name in upper case. -/
def DomElement.tagName (e : DomElement) : String := String.mk (e.localName.data.map Char.toUpper)

/-- An event target with its chain of ancestors, nearest first. -/
structure Target where
  self : DomElement
  ancestors : List DomElement
  deriving DecidableEq, Repr

/-- Whether the element matches one simple selector. -/
def Selector.matchesElement (e : DomElement) : Selector → Bool
  | Selector.type n => e.localName == n
  | Selector.cls c => e.classList.contains c
  | Selector.attrEq a v => e.attributes.lookup a == some v

/-- Method `element.matches(selectors)` for a comma-joined selector list. -/
def DomElement.matchesSelectors (e : DomElement) (selectors : List Selector) : Bool :=
  selectors.any (fun sel => sel.matchesElement e)

/-- Method `target.closest(selectors)`: the target itself or its nearest matching ancestor. -/
def Target.closest (t : Target) (selectors : List Selector) : Option DomElement :=
  (t.self :: t.ancestors).find? (fun e => e.matchesSelectors selectors)

/-- The list `interactiveSelectors` of `setupHoverEffects`. -/
def interactiveSelectors : List Selector :=
  [Selector.type "a", Selector.type "button", Selector.type "input", Selector.type "textarea",
   Selector.type "select",
   Selector.attrEq "role" "button", Selector.cls "clickable", Selector.cls "futuristic-button",
   Selector.cls "nav-link", Selector.cls "quick-action", Selector.cls "chatbot-toggle",
   Selector.cls "send-button", Selector.cls "mic-button", Selector.cls "close-btn",
   Selector.cls "menu-toggle-btn", Selector.cls "mobile-nav-link"]

/-- The list `buttonSelectors` of `setupHoverEffects`. -/
def buttonSelectors : List Selector :=
  [Selector.type "button", Selector.cls "futuristic-button", Selector.cls "chatbot-toggle",
   Selector.cls "send-button", Selector.cls "mic-button", Selector.attrEq "role" "button"]

/-- The list `textSelectors` of `setupHoverEffects`. -/
def textSelectors : List Selector :=
  [Selector.type "p", Selector.type "h1", Selector.type "h2", Selector.type "h3",
   Selector.type "h4", Selector.type "h5", Selector.type "h6",
   Selector.type "span", Selector.type "div", Selector.type "article", Selector.type "section"]

/-- White space and line terminators stripped by `String.prototype.trim`. -/
def jsWhiteSpace (c : Char) : Bool :=
  [0x0009, 0x000A, 0x000B, 0x000C, 0x000D, 0x0020, 0x00A0, 0x1680, 0x2000, 0x2001, 0x2002,
   0x2003, 0x2004, 0x2005, 0x2006, 0x2007, 0x2008, 0x2009, 0x200A, 0x2028, 0x2029, 0x202F,
   0x205F, 0x3000, 0xFEFF].contains c.toNat

/-- Method `str.trim()` on the list of characters. -/
def jsTrim (cs : List Char) : List Char :=
  ((cs.dropWhile jsWhiteSpace).reverse.dropWhile jsWhiteSpace).reverse

/-- Method `isTextElement(element)`. -/
def isTextElement (element : DomElement) : Bool :=
  element.userSelect != "none" &&
  element.tagName != "BUTTON" &&
  element.tagName != "A" &&
  decide ((jsTrim element.textContent.data).length > 0)

/-! ## Events -/

inductive Event
  /-- A `mousemove` at `(clientX, clientY)`; `now1`, `now2` are the two `Date.now()` readings -/
  | mousemove (clientX clientY : Int) (now1 now2 : Int)
  | mouseenter
  | mouseleave
  | mousedown
  | mouseup
  | mouseover (target : Target)
  | mouseout (target : Target)
  /-- A `visibilitychange`, with the value of `document.hidden` -/
  | visibilitychange (hidden : Bool)
  /-- a `setTimeout` callback comes due -/
  | timer (t : Timer)
  /-- a `requestAnimationFrame` callback runs -/
  | animationFrame
  | callShow
  | callHide
  | callShowLoading
  | callHideLoading
  /-- A call `toggleTrail(enabled)`; `none` is a call without argument -/
  | callToggleTrail (enabled : Option Bool)
  | callDestroy
  /-- the page calls the (possibly wrapped) `window.showLoading` -/
  | windowShowLoading
  /-- the page calls the (possibly wrapped) `window.hideLoading` -/
  | windowHideLoading
  deriving DecidableEq, Repr

/-! ## The methods of `XploreonCircularCursor` -/

/-- Method `show()` (the word `show` is reserved, hence the longer name). -/
def showCursor (s : State) : Except JsError State :=
  if s.cursor.isSome && !s.isVisible then do
    let el ← member s.cursor
    pure { s with cursor := some { el with opacity := "1" }, isVisible := true }
  else pure s

/-- Method `hide()`. -/
def hide (s : State) : Except JsError State :=
  if s.cursor.isSome && s.isVisible then do
    let el ← member s.cursor
    pure { s with cursor := some { el with opacity := "0" }, isVisible := false }
  else pure s

/-- Method `showLoading()`. -/
def showLoading (s : State) : Except JsError State :=
  if s.cursor.isSome then do
    let el ← member s.cursor
    pure { s with cursor := some { el with classList := classListAdd el.classList "loading" } }
  else pure s

/-- Method `hideLoading()`. -/
def hideLoading (s : State) : Except JsError State :=
  if s.cursor.isSome then do
    let el ← member s.cursor
    pure { s with cursor := some { el with classList :=
                                     classListRemove el.classList ["loading"] } }
  else pure s

/-- Method `toggleTrail(enabled)`; `none` stands for `undefined`, and a defined argument is
represented by its truthiness (the only way `trailEnabled` is ever read). -/
def toggleTrail (s : State) (enabled : Option Bool) : Except JsError State :=
  pure { s with trailEnabled := match enabled with
                                | some b => b
                                | none => !s.trailEnabled }

/-- Method `destroy()`. -/
def destroy (s : State) : Except JsError State := do
  let s1 ←
    if s.cursor.isSome && (match s.cursor with
                           | some el => el.inBody
                           | none => false) then do
      let el ← member s.cursor
      pure { s with cursor := some { el with inBody := false } }
    else pure s
  -- every `.cursor-trail` in the document has a parent and is removed
  pure { s1 with document := { s1.document with trails := [] } }

/-- Method `createCursor()`. -/
def createCursor (s : State) : State :=
  let doc :=
    if s.document.staleCursors > 0 then
      { s.document with staleCursors := s.document.staleCursors - 1 }
    else s.document
  { s with
    cursor := some { classList := ["xploreon-cursor"], position := "fixed", zIndex := "999999",
                     pointerEvents := "none", opacity := "0", left := CssLength.unset,
                     top := CssLength.unset, inBody := true }
    document := doc }

/-- The element `createTrail(x, y)` builds: a `div.cursor-trail` anchored by its centre at
`(x, y)`. -/
def trailElement (id : Nat) (x y : Int) : TrailElement :=
  { id := id, className := "cursor-trail", position := "fixed",
    left := CssLength.px x, top := CssLength.px y, transform := "translate(-50%, -50%)",
    pointerEvents := "none", zIndex := "999998" }

/-- Method `createTrail(x, y)`. -/
def createTrail (s : State) (x y : Int) : State :=
  let trail := trailElement s.document.created x y
  { s with
    document := { s.document with trails := s.document.trails ++ [trail],
                                  created := s.document.created + 1 }
    timers := s.timers ++ [Timer.removeTrail trail.id] }

/-- The body of `animate` in `startAnimation` (one frame). -/
def animate (s : State) : Except JsError State :=
  if s.cursor.isSome && s.isVisible then do
    let el ← member s.cursor
    pure { s with cursor := some { el with left := CssLength.px s.mouseX,
                                           top := CssLength.px s.mouseY } }
  else pure s

/-! ## The listeners of `bindEvents` and `setupHoverEffects` -/

/-- The `mousemove` listener. -/
def onMouseMove (s : State) (clientX clientY now1 now2 : Int) : Except JsError State := do
  let s1 : State := { s with mouseX := clientX, mouseY := clientY }
  let s2 ← if !s1.isVisible then showCursor s1 else pure s1
  if s2.trailEnabled && decide (now1 - s2.lastTrailTime > 100) then
    let s3 := createTrail s2 clientX clientY
    pure { s3 with lastTrailTime := now2 }
  else pure s2

/-- The `mousedown` listener. -/
def onMouseDown (s : State) : Except JsError State :=
  if s.cursor.isSome then do
    let el ← member s.cursor
    pure { s with cursor := some { el with classList := classListAdd el.classList "active" } }
  else pure s

/-- The `mouseup` listener. -/
def onMouseUp (s : State) : Except JsError State :=
  if s.cursor.isSome then do
    let el ← member s.cursor
    pure { s with cursor := some { el with classList :=
                                     classListRemove el.classList ["active"] } }
  else pure s

/-- The `mouseover` listener. -/
def onMouseOver (s : State) (target : Target) : Except JsError State :=
  if !s.cursor.isSome then pure s
  else if target.self.matchesSelectors interactiveSelectors
      || (target.closest interactiveSelectors).isSome then do
    let el ← member s.cursor
    let el1 := { el with classList := classListAdd el.classList "hover" }
    if target.self.matchesSelectors buttonSelectors
        || (target.closest buttonSelectors).isSome then
      pure { s with cursor := some { el1 with classList := classListAdd el1.classList "button" } }
    else pure { s with cursor := some el1 }
  else if target.self.matchesSelectors textSelectors && isTextElement target.self then do
    let el ← member s.cursor
    pure { s with cursor := some { el with classList := classListAdd el.classList "text" } }
  else pure s

/-- The `mouseout` listener. -/
def onMouseOut (s : State) (target : Target) : Except JsError State :=
  if !s.cursor.isSome then pure s
  else if target.self.matchesSelectors interactiveSelectors
      || (target.closest interactiveSelectors).isSome then do
    let el ← member s.cursor
    pure { s with cursor := some { el with classList :=
                                     classListRemove el.classList ["hover", "button"] } }
  else if target.self.matchesSelectors textSelectors then do
    let el ← member s.cursor
    pure { s with cursor := some { el with classList := classListRemove el.classList ["text"] } }
  else pure s

/-- The `visibilitychange` listener. -/
def onVisibilityChange (s : State) (hidden : Bool) : Except JsError State :=
  if hidden then hide s else showCursor s

/-- A `setTimeout` callback runs. -/
def fireTimer (s : State) : Timer → Except JsError State
  | Timer.init => showCursor s
  | Timer.removeTrail id =>
      -- `if (trail.parentNode) trail.parentNode.removeChild(trail)`
      pure { s with document :=
                      { s.document with
                        trails := s.document.trails.filter (fun t => t.id != id) } }

/-! ## Construction -/

/-- Method `init()`: `bindEvents` registers the listeners dispatched by `step`;
`startAnimation` runs the first frame at once; the 100 ms `setTimeout` is left pending. -/
def init (s : State) : Except JsError State := do
  let s1 := createCursor s
  let s2 ← animate s1
  pure { s2 with timers := s2.timers ++ [Timer.init] }

/-- The constructor `new XploreonCircularCursor()` on a page whose document is `doc`. -/
def new (doc : Document) (global : GlobalRef) : Except JsError State :=
  init { cursor := none, mouseX := 0, mouseY := 0, isVisible := false, trailEnabled := true,
         lastTrailTime := 0, document := doc, timers := [], windowXploreonCursor := global,
         showLoadingWrapped := false, hideLoadingWrapped := false }

/-- Function `initCursor()`; `hasShowLoading` / `hasHideLoading` tell whether the page
already defines `window.showLoading` / `window.hideLoading`. -/
def initCursor (doc : Document) (global : GlobalRef) (hasShowLoading hasHideLoading : Bool) :
    Except JsError State := do
  let cursor ← new doc global
  pure { cursor with windowXploreonCursor := GlobalRef.controller,
                     showLoadingWrapped := hasShowLoading,
                     hideLoadingWrapped := hasHideLoading }

/-! ## The event loop -/

/-- One event, callback or method call. A timer that is not pending cannot fire. -/
def step (s : State) : Event → Except JsError State
  | Event.mousemove x y now1 now2 => onMouseMove s x y now1 now2
  | Event.mouseenter => showCursor s
  | Event.mouseleave => hide s
  | Event.mousedown => onMouseDown s
  | Event.mouseup => onMouseUp s
  | Event.mouseover t => onMouseOver s t
  | Event.mouseout t => onMouseOut s t
  | Event.visibilitychange hidden => onVisibilityChange s hidden
  | Event.timer t =>
      if t ∈ s.timers then fireTimer { s with timers := s.timers.erase t } t else pure s
  | Event.animationFrame => animate s
  | Event.callShow => showCursor s
  | Event.callHide => hide s
  | Event.callShowLoading => showLoading s
  | Event.callHideLoading => hideLoading s
  | Event.callToggleTrail enabled => toggleTrail s enabled
  | Event.callDestroy => destroy s
  | Event.windowShowLoading => if s.showLoadingWrapped then showLoading s else pure s
  | Event.windowHideLoading => if s.hideLoadingWrapped then hideLoading s else pure s

/-- Process a sequence of events in order; an exception aborts the run. -/
def run (s : State) : List Event → Except JsError State
  | [] => pure s
  | e :: es => do
      let s1 ← step s e
      run s1 es

/-- The states a page can be in: after `initCursor` (no listener can run between the
constructor and the assignment to `window.XploreonCursor`), then after any number of events. -/
inductive Reachable : State → Prop
  | start (doc : Document) (global : GlobalRef) (hs hh : Bool) (s : State) :
      initCursor doc global hs hh = Except.ok s → Reachable s
  | next (s : State) (e : Event) (s1 : State) :
      Reachable s → step s e = Except.ok s1 → Reachable s1

/-! ## Observations used by the statements -/

/-- The marker carries the class `c`. -/
def carries (s : State) (c : String) : Prop :=
  match s.cursor with
  | some el => c ∈ el.classList
  | none => False

/-- The marker element is in the document. -/
def markerInDocument (s : State) : Bool :=
  match s.cursor with
  | some el => el.inBody
  | none => false

/-- The `Date.now()` readings of a sequence of events, in order. -/
def clockReads : List Event → List Int
  | [] => []
  | Event.mousemove _ _ now1 now2 :: es => now1 :: now2 :: clockReads es
  | _ :: es => clockReads es

/-- The `mousemove` events of a run that created a trail element, each with the two clock
readings of its listener (the call to `createTrail` lies between them). -/
def spawnLog (s : State) : List Event → List (Int × Int)
  | [] => []
  | e :: es =>
    match step s e with
    | Except.error _ => []
    | Except.ok s1 =>
      match e with
      | Event.mousemove _ _ now1 now2 =>
        if s1.document.created ≠ s.document.created then (now1, now2) :: spawnLog s1 es
        else spawnLog s1 es
      | _ => spawnLog s1 es

/-- Events whose listener or method calls `show()`. -/
def Event.showTriggering : Event → Bool
  | Event.mousemove _ _ _ _ => true
  | Event.mouseenter => true
  | Event.visibilitychange hidden => !hidden
  | Event.timer Timer.init => true
  | Event.callShow => true
  | _ => false

/-- Events whose listener or method calls `hide()`. -/
def Event.hideTriggering : Event → Bool
  | Event.mouseleave => true
  | Event.visibilitychange hidden => hidden
  | Event.callHide => true
  | _ => false

/-! ## The hover classification in the words of the specification -/

/-- The target matches, or is contained within an element that matches, `selectors`. -/
def Target.matchesOrInside (t : Target) (selectors : List Selector) : Bool :=
  (t.self :: t.ancestors).any (fun e => e.matchesSelectors selectors)

/-- Text eligibility as the specification words it: selectable text, not a button or link
tag, non-empty trimmed text content. -/
def specTextEligible (e : DomElement) : Bool :=
  decide (e.userSelect ≠ "none") && decide (e.tagName ≠ "BUTTON" ∧ e.tagName ≠ "A") &&
  decide (jsTrim e.textContent.data ≠ [])

/-- The variants the specification assigns to a hovered target. -/
def specVariants (t : Target) : List String :=
  if t.matchesOrInside interactiveSelectors then
    if t.matchesOrInside buttonSelectors then ["hover", "button"] else ["hover"]
  else if t.self.matchesSelectors textSelectors && specTextEligible t.self then ["text"]
  else []

/-- The marker exists and its opacity mirrors `isVisible`. -/
def VisibleAgrees (s : State) : Prop :=
  ∃ el, s.cursor = some el ∧ el.opacity = if s.isVisible then "1" else "0"

/-! ## Concrete pages used as examples -/

/-- An empty document. -/
def doc0 : Document := { staleCursors := 0, trails := [], created := 0 }

/-- The marker as `createCursor` builds it. -/
def marker0 : MarkerElement :=
  { classList := ["xploreon-cursor"], position := "fixed", zIndex := "999999",
    pointerEvents := "none", opacity := "0", left := CssLength.unset, top := CssLength.unset,
    inBody := true }

/-- The state right after `initCursor()` on an empty document without loading hooks. -/
def state0 : State :=
  { cursor := some marker0, mouseX := 0, mouseY := 0, isVisible := false, trailEnabled := true,
    lastTrailTime := 0, document := doc0, timers := [Timer.init],
    windowXploreonCursor := GlobalRef.controller, showLoadingWrapped := false,
    hideLoadingWrapped := false }

/-- The state after one `mousemove` at `(3, 4)` handled at clock time 1000. -/
def state1 : State :=
  { cursor := some { marker0 with opacity := "1" }, mouseX := 3, mouseY := 4, isVisible := true,
    trailEnabled := true, lastTrailTime := 1000,
    document :=
      { staleCursors := 0,
        trails := [{ id := 0, className := "cursor-trail", position := "fixed",
                     left := CssLength.px 3, top := CssLength.px 4,
                     transform := "translate(-50%, -50%)", pointerEvents := "none",
                     zIndex := "999998" }],
        created := 1 },
    timers := [Timer.init, Timer.removeTrail 0],
    windowXploreonCursor := GlobalRef.controller, showLoadingWrapped := false,
    hideLoadingWrapped := false }

/-- A `span` with text inside a `button`. -/
def spanInButton : Target :=
  { self := { localName := "span", classList := [], attributes := [], userSelect := "auto",
              textContent := "OK" },
    ancestors := [{ localName := "button", classList := [], attributes := [],
                    userSelect := "auto", textContent := "OK" }] }

/-- A paragraph of selectable text outside any interactive element. -/
def plainParagraph : Target :=
  { self := { localName := "p", classList := [], attributes := [], userSelect := "auto",
              textContent := " hello " },
    ancestors := [{ localName := "body", classList := [], attributes := [],
                    userSelect := "auto", textContent := " hello " }] }

/-! ## Shared lemmas -/

theorem showCursor_some (s : State) (el : MarkerElement) (h : s.cursor = some el) :
    showCursor s = Except.ok (if s.isVisible then s
      else { s with cursor := some { el with opacity := "1" }, isVisible := true }) := by
  cases hv : s.isVisible <;> simp [showCursor, member, h, hv, bind, Except.bind, pure, Except.pure]

theorem showCursor_none (s : State) (h : s.cursor = none) : showCursor s = Except.ok s := by
  simp [showCursor, h, pure, Except.pure]

theorem hide_some (s : State) (el : MarkerElement) (h : s.cursor = some el) :
    hide s = Except.ok (if s.isVisible then
      { s with cursor := some { el with opacity := "0" }, isVisible := false } else s) := by
  cases hv : s.isVisible <;> simp [hide, member, h, hv, bind, Except.bind, pure, Except.pure]

theorem hide_none (s : State) (h : s.cursor = none) : hide s = Except.ok s := by
  simp [hide, h, pure, Except.pure]

theorem onMouseMove_some (s : State) (el : MarkerElement) (h : s.cursor = some el)
    (x y now1 now2 : Int) :
    onMouseMove s x y now1 now2 =
      Except.ok
        (if s.trailEnabled = true ∧ now1 - s.lastTrailTime > 100 then
          { createTrail { s with cursor := some (if s.isVisible then el
                                                 else { el with opacity := "1" }),
                                 mouseX := x, mouseY := y, isVisible := true } x y
            with lastTrailTime := now2 }
        else { s with cursor := some (if s.isVisible then el else { el with opacity := "1" }),
                      mouseX := x, mouseY := y, isVisible := true }) := by
  cases hv : s.isVisible <;> cases ht : s.trailEnabled <;>
    by_cases hlt : now1 - s.lastTrailTime > 100 <;>
    simp [onMouseMove, showCursor, member, h, hv, ht, hlt, bind, Except.bind, pure, Except.pure,
      createTrail]

theorem onMouseMove_none (s : State) (h : s.cursor = none) (x y now1 now2 : Int) :
    onMouseMove s x y now1 now2 =
      Except.ok
        (if s.trailEnabled = true ∧ now1 - s.lastTrailTime > 100 then
          { createTrail { s with mouseX := x, mouseY := y } x y with lastTrailTime := now2 }
        else { s with mouseX := x, mouseY := y }) := by
  cases hv : s.isVisible <;> cases ht : s.trailEnabled <;>
    by_cases hlt : now1 - s.lastTrailTime > 100 <;>
    simp [onMouseMove, showCursor, member, h, hv, ht, hlt, bind, Except.bind, pure, Except.pure,
      createTrail]

/-- What the `mousemove` listener does to the trail marks and to `lastTrailTime`. -/
theorem onMouseMove_trail (s : State) (x y now1 now2 : Int) :
    ∃ s1, onMouseMove s x y now1 now2 = Except.ok s1 ∧
      (s.trailEnabled = true ∧ now1 - s.lastTrailTime > 100 →
        s1.document.trails = s.document.trails ++ [trailElement s.document.created x y] ∧
        s1.document.created = s.document.created + 1 ∧ s1.lastTrailTime = now2) ∧
      (¬ (s.trailEnabled = true ∧ now1 - s.lastTrailTime > 100) →
        s1.document = s.document ∧ s1.lastTrailTime = s.lastTrailTime) := by
  cases hc : s.cursor with
  | none =>
    refine ⟨_, onMouseMove_none s hc x y now1 now2, ?_, ?_⟩ <;> intro hcond <;>
      simp [hcond, createTrail]
  | some el =>
    refine ⟨_, onMouseMove_some s el hc x y now1 now2, ?_, ?_⟩ <;> intro hcond <;>
      simp [hcond, createTrail]

/-- No listener, callback or method raises an exception. -/
theorem step_total (s : State) (e : Event) : ∃ s1, step s e = Except.ok s1 := by
  cases e with
  | mousemove x y n1 n2 =>
    obtain ⟨s1, h, _⟩ := onMouseMove_trail s x y n1 n2
    exact ⟨s1, h⟩
  | timer t =>
    cases hc : s.cursor <;> cases t <;>
    simp [step, fireTimer, showCursor, member, hc, bind, Except.bind, pure, Except.pure] <;>
    split_ifs <;> exact ⟨_, rfl⟩
  | _ =>
    cases hc : s.cursor <;>
    simp [step, onMouseDown, onMouseUp, onMouseOver, onMouseOut,
        onVisibilityChange, animate, showCursor, hide, showLoading, hideLoading,
        toggleTrail, destroy, member, hc, bind, Except.bind, pure, Except.pure] <;>
    (try split_ifs) <;> exact ⟨_, rfl⟩

theorem run_total (es : List Event) : ∀ s : State, ∃ s1, run s es = Except.ok s1 := by
  induction es with
  | nil => intro s; exact ⟨s, rfl⟩
  | cons e es ih =>
    intro s
    obtain ⟨s1, h1⟩ := step_total s e
    obtain ⟨s2, h2⟩ := ih s1
    exact ⟨s2, by simp [run, h1, h2, bind, Except.bind]⟩

theorem run_cons (s s1 : State) (e : Event) (es : List Event) (h : step s e = Except.ok s1) :
    run s (e :: es) = run s1 es := by
  simp [run, h, bind, Except.bind]


/-- What every step leaves alone. -/
theorem step_frame (s s1 : State) (e : Event) (hs : step s e = Except.ok s1) :
    s1.windowXploreonCursor = s.windowXploreonCursor ∧
    s1.cursor.isSome = s.cursor.isSome ∧
    ((∀ x y a b, e ≠ Event.mousemove x y a b) →
      s1.lastTrailTime = s.lastTrailTime ∧ s1.document.created = s.document.created) ∧
    (e.hideTriggering = false → s.isVisible = true → s1.isVisible = true) ∧
    (e.showTriggering = false → s.isVisible = false → s1.isVisible = false) := by
  cases e with
  | mousemove x y n1 n2 =>
    cases hc : s.cursor with
    | none =>
      rw [step, onMouseMove_none s hc] at hs
      injection hs with hs
      subst hs
      refine ⟨?_, ?_, ?_, ?_, ?_⟩ <;> split_ifs <;>
        simp_all [createTrail, Event.showTriggering]
    | some el =>
      rw [step, onMouseMove_some s el hc] at hs
      injection hs with hs
      subst hs
      refine ⟨?_, ?_, ?_, ?_, ?_⟩ <;> split_ifs <;>
        simp_all [createTrail, Event.showTriggering]
  | timer t =>
    cases hc : s.cursor <;> cases t <;>
    simp [step, fireTimer, showCursor, member, hc, bind, Except.bind, pure, Except.pure] at hs <;>
    (try split_ifs at hs) <;>
    injection hs with hs <;> subst hs <;>
    simp_all [Event.showTriggering, Event.hideTriggering]
  | _ =>
    cases hc : s.cursor <;>
    simp [step, onMouseDown, onMouseUp, onMouseOver, onMouseOut,
        onVisibilityChange, animate, showCursor, hide, showLoading, hideLoading,
        toggleTrail, destroy, member, hc, bind, Except.bind, pure, Except.pure] at hs <;>
    (try split_ifs at hs) <;>
    (first | (injection hs with hs; subst hs) | subst hs) <;>
    simp_all [Event.showTriggering, Event.hideTriggering]

theorem step_visibleAgrees (s s1 : State) (e : Event) (h : VisibleAgrees s)
    (hs : step s e = Except.ok s1) : VisibleAgrees s1 := by
  obtain ⟨el, hc, ho⟩ := h
  cases e with
  | mousemove x y n1 n2 =>
    rw [step, onMouseMove_some s el hc] at hs
    injection hs with hs
    subst hs
    cases hv : s.isVisible <;> simp [hv] at ho <;> split_ifs <;>
      simp_all [VisibleAgrees, createTrail]
  | timer t =>
    cases t <;>
    simp [step, fireTimer, showCursor, member, hc, bind, Except.bind, pure, Except.pure] at hs <;>
    split_ifs at hs <;> injection hs with hs <;> subst hs <;> simp_all [VisibleAgrees]
  | _ =>
    simp [step, onMouseDown, onMouseUp, onMouseOver, onMouseOut,
        onVisibilityChange, animate, showCursor, hide, showLoading, hideLoading,
        toggleTrail, destroy, member, hc, bind, Except.bind, pure, Except.pure] at hs
    all_goals
      (try split_ifs at hs) <;>
      (first | (injection hs with hs; subst hs) | subst hs) <;>
      simp_all [VisibleAgrees]

theorem initCursor_eq (doc : Document) (global : GlobalRef) (hs hh : Bool) :
    initCursor doc global hs hh = Except.ok
      { cursor := some marker0, mouseX := 0, mouseY := 0, isVisible := false,
        trailEnabled := true, lastTrailTime := 0,
        document := if doc.staleCursors > 0 then
                      { doc with staleCursors := doc.staleCursors - 1 } else doc,
        timers := [Timer.init], windowXploreonCursor := GlobalRef.controller,
        showLoadingWrapped := hs, hideLoadingWrapped := hh } := by
  simp [initCursor, new, init, createCursor, animate, marker0, bind, Except.bind, pure,
    Except.pure]

theorem reachable_visibleAgrees (s : State) (h : Reachable s) : VisibleAgrees s := by
  induction h with
  | start doc global hs hh s h0 =>
    rw [initCursor_eq] at h0
    injection h0 with h0
    subst h0
    exact ⟨marker0, rfl, rfl⟩
  | next s e s1 _ hstep ih => exact step_visibleAgrees s s1 e ih hstep

theorem reachable_state0 : Reachable state0 :=
  Reachable.start doc0 GlobalRef.undefined false false state0 rfl

theorem reachable_state1 : Reachable state1 :=
  Reachable.next state0 (Event.mousemove 3 4 1000 1000) state1 reachable_state0 rfl



theorem matches_or_closest (t : Target) (selectors : List Selector) :
    (t.self.matchesSelectors selectors || (t.closest selectors).isSome) =
      t.matchesOrInside selectors := by
  rw [Bool.eq_iff_iff]
  simp only [Target.closest, Target.matchesOrInside, Bool.or_eq_true, List.find?_isSome,
    List.any_eq_true, List.mem_cons]
  constructor
  · rintro (h | ⟨e, he, hm⟩)
    · exact ⟨t.self, Or.inl rfl, h⟩
    · exact ⟨e, he, hm⟩
  · rintro ⟨e, he, hm⟩
    exact Or.inr ⟨e, he, hm⟩

theorem button_is_interactive (e : DomElement) (h : e.matchesSelectors buttonSelectors = true) :
    e.matchesSelectors interactiveSelectors = true := by
  simp only [DomElement.matchesSelectors, buttonSelectors, interactiveSelectors, List.any_cons,
    List.any_nil, Bool.or_false, Bool.or_eq_true] at h ⊢
  tauto

theorem inside_button_inside_interactive (t : Target)
    (h : t.matchesOrInside buttonSelectors = true) :
    t.matchesOrInside interactiveSelectors = true := by
  simp only [Target.matchesOrInside, List.any_eq_true] at h ⊢
  obtain ⟨e, he, hm⟩ := h
  exact ⟨e, he, button_is_interactive e hm⟩

theorem isTextElement_eq_spec (e : DomElement) : isTextElement e = specTextEligible e := by
  rw [Bool.eq_iff_iff]
  simp only [isTextElement, specTextEligible]
  cases h : jsTrim e.textContent.data <;> simp [and_assoc]

theorem mem_classListAdd (l : List String) (token c : String) :
    c ∈ classListAdd l token ↔ c ∈ l ∨ c = token := by
  unfold classListAdd
  split_ifs with h
  · constructor
    · intro hc; exact Or.inl hc
    · rintro (hc | rfl)
      · exact hc
      · exact h
  · simp

theorem mem_classListRemove (l tokens : List String) (c : String) :
    c ∈ classListRemove l tokens ↔ c ∈ l ∧ c ∉ tokens := by
  simp [classListRemove]



theorem reachable_global (s : State) (h : Reachable s) :
    s.windowXploreonCursor = GlobalRef.controller := by
  induction h with
  | start doc global hs hh s h0 =>
    rw [initCursor_eq] at h0
    injection h0 with h0
    subst h0
    rfl
  | next s e s1 _ hstep ih => rw [(step_frame s s1 e hstep).1, ih]

theorem run_global (es : List Event) :
    ∀ s s1 : State, run s es = Except.ok s1 →
      s1.windowXploreonCursor = s.windowXploreonCursor := by
  induction es with
  | nil =>
    intro s s1 h
    simp only [run, pure, Except.pure] at h
    injection h with h
    rw [h]
  | cons e es ih =>
    intro s s1 h
    obtain ⟨s2, h2⟩ := step_total s e
    rw [run_cons s s2 e es h2] at h
    rw [ih s2 s1 h, (step_frame s s2 e h2).1]

/-- C6, as stated, fails: after `destroy()` on the freshly initialised page the global
`window.XploreonCursor` still refers to the controller. -/
theorem destroy_keeps_global_counterexample :
    ¬ (∀ s s1 : State, Reachable s → destroy s = Except.ok s1 →
        s1.windowXploreonCursor ≠ GlobalRef.controller) := by
  intro h
  exact h state0 { state0 with cursor := some { marker0 with inBody := false } }
    reachable_state0 rfl rfl

/-- C6, amended: `destroy()` does not touch the page-global handle: in every reachable state
`destroy()` completes and `window.XploreonCursor` still refers to the controller afterwards,
also after any further events and calls. -/
theorem destroy_keeps_global (s : State) (h : Reachable s) :
    ∃ s1, destroy s = Except.ok s1 ∧ s1.windowXploreonCursor = GlobalRef.controller ∧
      ∀ es : List Event, ∃ s2, run s1 es = Except.ok s2 ∧
        s2.windowXploreonCursor = GlobalRef.controller := by
  obtain ⟨s1, h1⟩ := step_total s Event.callDestroy
  have hr : Reachable s1 := Reachable.next s Event.callDestroy s1 h h1
  refine ⟨s1, h1, reachable_global s1 hr, ?_⟩
  intro es
  obtain ⟨s2, h2⟩ := run_total es s1
  exact ⟨s2, h2, by rw [run_global es s1 s2 h2, reachable_global s1 hr]⟩

theorem destroy_keeps_global_witness :
    ∃ s1, destroy state1 = Except.ok s1 ∧ s1.windowXploreonCursor = GlobalRef.controller ∧
      ∀ es : List Event, ∃ s2, run s1 es = Except.ok s2 ∧
        s2.windowXploreonCursor = GlobalRef.controller :=
  destroy_keeps_global state1 reachable_state1

/-- C1, as stated, fails: a `mousemove` arriving exactly 100 ms after the last trail, with
trails enabled, spawns no trail mark and leaves `lastTrailTime` alone. -/
theorem trail_at_100ms_counterexample :
    ¬ (∀ (s s1 : State) (x y t : Int), Reachable s → onMouseMove s x y t t = Except.ok s1 →
        ((s1.document.trails = s.document.trails ++ [trailElement s.document.created x y] ∧
            s1.lastTrailTime = t) ↔
          (s.trailEnabled = true ∧ t - s.lastTrailTime ≥ 100))) := by
  intro h
  have h1 := h state1 { state1 with mouseX := 5, mouseY := 6 } 5 6 1100 reachable_state1 rfl
  have h2 := h1.2 ⟨rfl, by decide⟩
  exact absurd h2.2 (by decide)

/-- C1, amended: the `mousemove` listener completes in every state; it appends a trail mark
at the event's coordinates exactly when `trailEnabled` is true and the first clock reading
is more than 100 ms after `lastTrailTime`, and then `lastTrailTime` becomes the second clock
reading; otherwise the trail marks and `lastTrailTime` are unchanged, in particular when the
move arrives exactly 100 ms after the last trail. -/
theorem trail_spawn_iff (s : State) (x y now1 now2 : Int) :
    ∃ s1, onMouseMove s x y now1 now2 = Except.ok s1 ∧
      (s1.document.trails = s.document.trails ++ [trailElement s.document.created x y] ↔
        (s.trailEnabled = true ∧ now1 - s.lastTrailTime > 100)) ∧
      (s.trailEnabled = true ∧ now1 - s.lastTrailTime > 100 → s1.lastTrailTime = now2) ∧
      (¬ (s.trailEnabled = true ∧ now1 - s.lastTrailTime > 100) →
        s1.document.trails = s.document.trails ∧ s1.lastTrailTime = s.lastTrailTime) ∧
      (now1 - s.lastTrailTime = 100 →
        s1.document.trails = s.document.trails ∧ s1.lastTrailTime = s.lastTrailTime) := by
  obtain ⟨s1, h1, hyes, hno⟩ := onMouseMove_trail s x y now1 now2
  refine ⟨s1, h1, ?_, ?_, ?_, ?_⟩
  · constructor
    · intro ht
      by_contra hcond
      rw [(hno hcond).1] at ht
      simp at ht
    · intro hcond
      exact (hyes hcond).1
  · intro hcond
    exact (hyes hcond).2.2
  · intro hcond
    exact ⟨by rw [(hno hcond).1], (hno hcond).2⟩
  · intro h100
    have hcond : ¬ (s.trailEnabled = true ∧ now1 - s.lastTrailTime > 100) := by
      rintro ⟨_, hgt⟩
      omega
    exact ⟨by rw [(hno hcond).1], (hno hcond).2⟩

theorem trail_spawn_iff_witness :
    ∃ s1, onMouseMove state1 5 6 1100 1100 = Except.ok s1 ∧
      s1.document.trails = state1.document.trails ∧ s1.lastTrailTime = state1.lastTrailTime := by
  obtain ⟨s1, h1, _, _, _, h100⟩ := trail_spawn_iff state1 5 6 1100 1100
  exact ⟨s1, h1, h100 (by decide)⟩

/-! ## Claims on hovering -/

theorem mem_foldl_classListAdd (tokens : List String) :
    ∀ (l : List String) (c : String),
      c ∈ tokens.foldl classListAdd l ↔ c ∈ l ∨ c ∈ tokens := by
  induction tokens with
  | nil => intro l c; simp
  | cons v vs ih =>
    intro l c
    rw [List.foldl_cons, ih, mem_classListAdd, List.mem_cons]
    tauto

theorem onMouseOver_some (s : State) (el : MarkerElement) (h : s.cursor = some el)
    (t : Target) :
    onMouseOver s t = Except.ok
      { s with cursor := some { el with classList :=
                                  (specVariants t).foldl classListAdd el.classList } } := by
  have hs : s = { s with cursor := some el } := by cases s; simp_all
  unfold onMouseOver specVariants
  simp only [matches_or_closest, isTextElement_eq_spec]
  cases h1 : t.matchesOrInside interactiveSelectors <;>
    cases h2 : t.matchesOrInside buttonSelectors <;>
    cases h3 : (t.self.matchesSelectors textSelectors && specTextEligible t.self) <;>
    simp [h, member, bind, Except.bind, pure, Except.pure] <;>
    exact hs

theorem onMouseOut_some (s : State) (el : MarkerElement) (h : s.cursor = some el)
    (t : Target) :
    onMouseOut s t = Except.ok
      (if t.matchesOrInside interactiveSelectors then
        { s with cursor := some { el with classList :=
                                    classListRemove el.classList ["hover", "button"] } }
      else if t.self.matchesSelectors textSelectors then
        { s with cursor := some { el with classList :=
                                    classListRemove el.classList ["text"] } }
      else s) := by
  unfold onMouseOut
  simp only [matches_or_closest]
  cases h1 : t.matchesOrInside interactiveSelectors <;>
    cases h3 : t.self.matchesSelectors textSelectors <;>
    simp [h, member, bind, Except.bind, pure, Except.pure]

theorem onMouseOut_none (s : State) (h : s.cursor = none) (t : Target) :
    onMouseOut s t = Except.ok s := by
  simp [onMouseOut, h, pure, Except.pure]

theorem onMouseOver_none (s : State) (h : s.cursor = none) (t : Target) :
    onMouseOver s t = Except.ok s := by
  simp [onMouseOver, h, pure, Except.pure]

/-- C3: in every reachable state the `mouseover` listener completes and adds to the marker
exactly the variants the specification assigns to the target: 'hover' when the target matches
or is inside an interactive element, plus 'button' when it matches or is inside a button-like
element; otherwise 'text' when it matches the text-bearing set and passes the text-eligibility
check; otherwise nothing. 'button' is added exactly when the target matches or is inside a
button-like element. -/
theorem mouseover_variants (s : State) (h : Reachable s) (t : Target) :
    ∃ el, s.cursor = some el ∧
      onMouseOver s t = Except.ok
        { s with cursor := some { el with classList :=
                                    (specVariants t).foldl classListAdd el.classList } } ∧
      (∀ c, c ∈ (specVariants t).foldl classListAdd el.classList ↔
        c ∈ el.classList ∨ c ∈ specVariants t) ∧
      ("hover" ∈ specVariants t ↔ t.matchesOrInside interactiveSelectors = true) ∧
      ("button" ∈ specVariants t ↔ t.matchesOrInside buttonSelectors = true) ∧
      ("text" ∈ specVariants t ↔
        (t.matchesOrInside interactiveSelectors = false ∧
          t.self.matchesSelectors textSelectors = true ∧
          t.self.userSelect ≠ "none" ∧ t.self.tagName ≠ "BUTTON" ∧ t.self.tagName ≠ "A" ∧
          jsTrim t.self.textContent.data ≠ [])) ∧
      (∀ c ∈ specVariants t, c = "hover" ∨ c = "button" ∨ c = "text") := by
  obtain ⟨el, hc, _⟩ := reachable_visibleAgrees s h
  refine ⟨el, hc, onMouseOver_some s el hc t, mem_foldl_classListAdd _ _, ?_, ?_, ?_, ?_⟩
  · unfold specVariants
    split_ifs <;> simp_all
  · unfold specVariants
    split_ifs with h1 h2 h3 <;> simp_all
    all_goals
      cases hb : t.matchesOrInside buttonSelectors
      · rfl
      · have := inside_button_inside_interactive t hb
        simp_all
  · unfold specVariants
    split_ifs with h1 h2 h3 <;> simp_all [specTextEligible]
  · unfold specVariants
    split_ifs <;> simp

theorem mouseover_variants_witness :
    ∃ el, state0.cursor = some el ∧
      onMouseOver state0 spanInButton = Except.ok
        { state0 with
          cursor := some { el with
                           classList :=
                             (specVariants spanInButton).foldl classListAdd el.classList } } ∧
      (∀ c, c ∈ (specVariants spanInButton).foldl classListAdd el.classList ↔
        c ∈ el.classList ∨ c ∈ specVariants spanInButton) ∧
      ("hover" ∈ specVariants spanInButton ↔
        spanInButton.matchesOrInside interactiveSelectors = true) ∧
      ("button" ∈ specVariants spanInButton ↔
        spanInButton.matchesOrInside buttonSelectors = true) ∧
      ("text" ∈ specVariants spanInButton ↔
        (spanInButton.matchesOrInside interactiveSelectors = false ∧
          spanInButton.self.matchesSelectors textSelectors = true ∧
          spanInButton.self.userSelect ≠ "none" ∧ spanInButton.self.tagName ≠ "BUTTON" ∧
          spanInButton.self.tagName ≠ "A" ∧
          jsTrim spanInButton.self.textContent.data ≠ [])) ∧
      (∀ c ∈ specVariants spanInButton, c = "hover" ∨ c = "button" ∨ c = "text") :=
  mouseover_variants state0 reachable_state0 spanInButton

/-- C4: a `mouseover` on a target followed by a `mouseout` on the same target leaves the
marker carrying none of the variants the `mouseover` applied; after a `mouseout` on an
interactive target the marker carries neither 'hover' nor 'button', and after a `mouseout` on
a non-interactive text-bearing target it does not carry 'text'. -/
theorem mouseout_removes (s : State) (t : Target) :
    (∃ s1 s2, onMouseOver s t = Except.ok s1 ∧ onMouseOut s1 t = Except.ok s2 ∧
      ∀ c ∈ specVariants t, ¬ carries s2 c) ∧
    (∃ s3, onMouseOut s t = Except.ok s3 ∧
      (t.matchesOrInside interactiveSelectors = true →
        ¬ carries s3 "hover" ∧ ¬ carries s3 "button") ∧
      (t.matchesOrInside interactiveSelectors = false →
        t.self.matchesSelectors textSelectors = true → ¬ carries s3 "text")) := by
  cases hc : s.cursor with
  | none =>
    refine ⟨⟨s, s, onMouseOver_none s hc t, onMouseOut_none s hc t, ?_⟩,
      ⟨s, onMouseOut_none s hc t, ?_, ?_⟩⟩ <;> simp [carries, hc]
  | some el =>
    refine ⟨⟨_, _, onMouseOver_some s el hc t, onMouseOut_some _ _ rfl t, ?_⟩,
      ⟨_, onMouseOut_some s el hc t, ?_, ?_⟩⟩
    · intro c hcv
      unfold specVariants at hcv
      split_ifs at hcv with h1 h2 h3 <;>
        simp_all [carries, mem_classListRemove]
    · intro h1
      simp [h1, carries, mem_classListRemove]
    · intro h1 h2
      simp [h1, h2, carries, mem_classListRemove]

theorem mouseout_removes_witness :
    ∃ s3, onMouseOut state0 plainParagraph = Except.ok s3 ∧ ¬ carries s3 "text" := by
  obtain ⟨s3, h3, _, htext⟩ := (mouseout_removes state0 plainParagraph).2
  exact ⟨s3, h3, htext (by decide) (by decide)⟩

/-! ## Claims on visibility and teardown -/

/-- C7: `show()` and `hide()` are idempotent: calling either twice gives the state of calling
it once, `show()` on a visible state and `hide()` on a hidden state change nothing, marker
opacity included. -/
theorem show_hide_idempotent (s : State) :
    (showCursor s >>= showCursor) = showCursor s ∧
    (hide s >>= hide) = hide s ∧
    (s.isVisible = true → showCursor s = Except.ok s) ∧
    (s.isVisible = false → hide s = Except.ok s) := by
  cases hc : s.cursor with
  | none =>
    simp [showCursor_none s hc, hide_none s hc, bind, Except.bind]
  | some el =>
    cases hv : s.isVisible
    · refine ⟨?_, ?_, ?_, ?_⟩
      · rw [showCursor_some s el hc]
        simp only [hv, bind, Except.bind, Bool.false_eq_true, if_false, if_true]
        rw [showCursor_some _ _ rfl]
        simp
      · rw [hide_some s el hc]
        simp only [hv, bind, Except.bind, Bool.false_eq_true, if_false, if_true]
        rw [hide_some s el hc]
        simp [hv]
      · intro h; cases h
      · intro _; rw [hide_some s el hc]; simp [hv]
    · refine ⟨?_, ?_, ?_, ?_⟩
      · rw [showCursor_some s el hc]
        simp only [hv, bind, Except.bind, Bool.false_eq_true, if_false, if_true]
        rw [showCursor_some s el hc]
        simp [hv]
      · rw [hide_some s el hc]
        simp only [hv, bind, Except.bind, Bool.false_eq_true, if_false, if_true]
        rw [hide_some _ _ rfl]
        simp
      · intro _; rw [showCursor_some s el hc]; simp [hv]
      · intro h; cases h

theorem show_hide_idempotent_witness :
    showCursor state1 = Except.ok state1 ∧ hide state0 = Except.ok state0 :=
  ⟨(show_hide_idempotent state1).2.2.1 rfl, (show_hide_idempotent state0).2.2.2 rfl⟩

/-- C10: in every state reachable from `initCursor` through events, timer callbacks and
method calls (`destroy()` included), `isVisible` is true exactly when the marker's opacity is
'1' and false exactly when it is '0'. -/
theorem visible_iff_opacity (s : State) (h : Reachable s) :
    ∃ el, s.cursor = some el ∧
      (s.isVisible = true ↔ el.opacity = "1") ∧ (s.isVisible = false ↔ el.opacity = "0") := by
  obtain ⟨el, hc, ho⟩ := reachable_visibleAgrees s h
  refine ⟨el, hc, ?_, ?_⟩ <;> cases hv : s.isVisible <;> simp [hv] at ho <;> simp [ho]

theorem visible_iff_opacity_witness :
    ∃ el, state1.cursor = some el ∧
      (state1.isVisible = true ↔ el.opacity = "1") ∧
      (state1.isVisible = false ↔ el.opacity = "0") :=
  visible_iff_opacity state1 reachable_state1

/-- C9: a `mousemove` at `(x, y)` handled in any reachable state completes, and afterwards
`(mouseX, mouseY) = (x, y)` and `isVisible` is true, whatever `trailEnabled` is and whether or
not a trail mark was spawned. -/
theorem mousemove_position_visible (s : State) (h : Reachable s) (x y now1 now2 : Int) :
    ∃ s1, onMouseMove s x y now1 now2 = Except.ok s1 ∧
      s1.mouseX = x ∧ s1.mouseY = y ∧ s1.isVisible = true := by
  obtain ⟨el, hc, _⟩ := reachable_visibleAgrees s h
  refine ⟨_, onMouseMove_some s el hc x y now1 now2, ?_, ?_, ?_⟩ <;> split_ifs <;>
    simp [createTrail]

theorem mousemove_position_visible_witness :
    ∃ s1, onMouseMove state0 7 8 50 50 = Except.ok s1 ∧
      s1.mouseX = 7 ∧ s1.mouseY = 8 ∧ s1.isVisible = true :=
  mousemove_position_visible state0 reachable_state0 7 8 50 50

/-- C5: `destroy()` completes in every state; right after it the marker is not in the
document and the document holds no trail mark; and after any further events and calls each of
`show`, `hide`, `showLoading`, `hideLoading`, `toggleTrail` and `destroy` completes without
raising an exception. -/
theorem destroy_removes_and_methods_safe (s : State) :
    ∃ s1, destroy s = Except.ok s1 ∧ markerInDocument s1 = false ∧ s1.document.trails = [] ∧
      ∀ es : List Event, ∃ s2, run s1 es = Except.ok s2 ∧
        (∃ r, showCursor s2 = Except.ok r) ∧ (∃ r, hide s2 = Except.ok r) ∧
        (∃ r, showLoading s2 = Except.ok r) ∧ (∃ r, hideLoading s2 = Except.ok r) ∧
        (∀ enabled, ∃ r, toggleTrail s2 enabled = Except.ok r) ∧
        (∃ r, destroy s2 = Except.ok r) := by
  have hd : ∃ s1, destroy s = Except.ok s1 ∧ markerInDocument s1 = false ∧
      s1.document.trails = [] := by
    cases hc : s.cursor with
    | none =>
      exact ⟨_, by simp [destroy, hc, bind, Except.bind, pure, Except.pure]; rfl,
        by simp [markerInDocument, hc], rfl⟩
    | some el =>
      cases hb : el.inBody
      · exact ⟨_, by simp [destroy, hc, hb, bind, Except.bind, pure, Except.pure]; rfl,
          by simp [markerInDocument, hc, hb], rfl⟩
      · exact ⟨_, by simp [destroy, hc, hb, member, bind, Except.bind, pure, Except.pure]; rfl,
          by simp [markerInDocument], rfl⟩
  obtain ⟨s1, h1, hm, ht⟩ := hd
  refine ⟨s1, h1, hm, ht, ?_⟩
  intro es
  obtain ⟨s2, h2⟩ := run_total es s1
  exact ⟨s2, h2, step_total s2 Event.callShow, step_total s2 Event.callHide,
    step_total s2 Event.callShowLoading, step_total s2 Event.callHideLoading,
    fun enabled => step_total s2 (Event.callToggleTrail enabled),
    step_total s2 Event.callDestroy⟩


/-! ## Claims on trail throttling -/

theorem mousemove_or_other (e : Event) :
    (∃ x y a b, e = Event.mousemove x y a b) ∨ (∀ x y a b, e ≠ Event.mousemove x y a b) := by
  cases e <;> simp

theorem spawnLog_other (s s1 : State) (e : Event) (es : List Event)
    (hne : ∀ x y a b, e ≠ Event.mousemove x y a b) (h1 : step s e = Except.ok s1) :
    spawnLog s (e :: es) = spawnLog s1 es ∧ clockReads (e :: es) = clockReads es := by
  cases e
  case mousemove x y a b => exact absurd rfl (hne x y a b)
  all_goals simp_all [spawnLog, clockReads]

theorem spawnLog_mousemove (s s1 : State) (x y n1 n2 : Int) (es : List Event)
    (h : onMouseMove s x y n1 n2 = Except.ok s1) :
    spawnLog s (Event.mousemove x y n1 n2 :: es) =
      if s1.document.created ≠ s.document.created then (n1, n2) :: spawnLog s1 es
      else spawnLog s1 es := by
  simp [spawnLog, step, h]

theorem spawnLog_spaced (es : List Event) :
    ∀ s : State, List.Pairwise (fun a b => a ≤ b) (clockReads es) →
      (∀ p ∈ spawnLog s es, s.lastTrailTime + 100 < p.1 ∧ p.1 ≤ p.2) ∧
      List.Pairwise (fun a b => a.2 + 100 < b.1) (spawnLog s es) := by
  induction es with
  | nil => intro s _; simp [spawnLog]
  | cons e es ih =>
    intro s hp
    rcases mousemove_or_other e with ⟨x, y, n1, n2, rfl⟩ | hne
    · obtain ⟨s1, h1, hyes, hno⟩ := onMouseMove_trail s x y n1 n2
      simp only [clockReads, List.pairwise_cons, List.mem_cons, forall_eq_or_imp] at hp
      obtain ⟨⟨h12, _⟩, _, hrest⟩ := hp
      obtain ⟨ihm, ihp⟩ := ih s1 hrest
      rw [spawnLog_mousemove s s1 x y n1 n2 es h1]
      by_cases hcond : s.trailEnabled = true ∧ n1 - s.lastTrailTime > 100
      · obtain ⟨_, hcr, hl⟩ := hyes hcond
        rw [hl] at ihm
        have hne : s1.document.created ≠ s.document.created := by omega
        rw [if_pos hne]
        refine ⟨?_, ?_⟩
        · intro p hmem
          rcases List.mem_cons.1 hmem with rfl | hmem
          · exact ⟨by have := hcond.2; simp only; omega, h12⟩
          · have := ihm p hmem
            have := hcond.2
            constructor <;> omega
        · rw [List.pairwise_cons]
          exact ⟨fun p hmem => (ihm p hmem).1, ihp⟩
      · obtain ⟨hd, hl⟩ := hno hcond
        rw [hl] at ihm
        have heq : ¬ (s1.document.created ≠ s.document.created) := by simp [hd]
        rw [if_neg heq]
        exact ⟨ihm, ihp⟩
    · obtain ⟨s1, h1⟩ := step_total s e
      obtain ⟨hlog, hclock⟩ := spawnLog_other s s1 e es hne h1
      rw [hclock] at hp
      obtain ⟨ihm, ihp⟩ := ih s1 hp
      rw [((step_frame s s1 e h1).2.2.1 hne).1] at ihm
      rw [hlog]
      exact ⟨ihm, ihp⟩

/-- C2: over any sequence of events (moves, toggles, show, hide, destroy, timers, ...) handled
from any state under a non-decreasing clock, any two trail marks spawned by the `mousemove`
listener are at least 100 ms apart (in fact more than 100 ms), whichever instants between the
two clock readings of each listener run are taken as their spawn times. -/
theorem trail_spawns_spaced (s : State) (es : List Event)
    (hclock : List.Pairwise (fun a b => a ≤ b) (clockReads es)) :
    List.Pairwise
      (fun a b : Int × Int =>
        ∀ ta tb : Int, a.1 ≤ ta → ta ≤ a.2 → b.1 ≤ tb → tb ≤ b.2 →
          ta + 100 ≤ tb ∧ ta + 100 < tb)
      (spawnLog s es) := by
  obtain ⟨_, hp⟩ := spawnLog_spaced es s hclock
  refine hp.imp ?_
  intro a b hab ta tb _ h2 h3 _
  constructor <;> omega

theorem trail_spawns_spaced_witness :
    List.Pairwise
      (fun a b : Int × Int =>
        ∀ ta tb : Int, a.1 ≤ ta → ta ≤ a.2 → b.1 ≤ tb → tb ≤ b.2 →
          ta + 100 ≤ tb ∧ ta + 100 < tb)
      (spawnLog state0
        [Event.mousemove 3 4 1000 1000, Event.callToggleTrail none,
         Event.callToggleTrail none, Event.mousemove 5 6 1100 1100,
         Event.mousemove 7 8 1101 1102]) :=
  trail_spawns_spaced state0 _ (by decide)

theorem spawnLog_example :
    spawnLog state0
        [Event.mousemove 3 4 1000 1000, Event.callToggleTrail none,
         Event.callToggleTrail none, Event.mousemove 5 6 1100 1100,
         Event.mousemove 7 8 1101 1102] = [(1000, 1000), (1101, 1102)] := by
  decide


/-! ## Claims on the initialization delay -/

theorem run_append (es1 : List Event) :
    ∀ (s s1 : State) (es2 : List Event), run s es1 = Except.ok s1 →
      run s (es1 ++ es2) = run s1 es2 := by
  induction es1 with
  | nil =>
    intro s s1 es2 h
    simp only [run, pure, Except.pure] at h
    injection h with h
    rw [h, List.nil_append]
  | cons e es ih =>
    intro s s1 es2 h
    obtain ⟨s2, h2⟩ := step_total s e
    rw [run_cons s s2 e es h2] at h
    rw [List.cons_append, run_cons s s2 e _ h2]
    exact ih s2 s1 es2 h

theorem run_stays_hidden (es : List Event) :
    ∀ s s1 : State, (∀ e ∈ es, e.showTriggering = false) → s.isVisible = false →
      run s es = Except.ok s1 → s1.isVisible = false := by
  induction es with
  | nil =>
    intro s s1 _ hv h
    simp only [run, pure, Except.pure] at h
    injection h with h
    rw [← h]; exact hv
  | cons e es ih =>
    intro s s1 hall hv h
    obtain ⟨s2, h2⟩ := step_total s e
    rw [run_cons s s2 e es h2] at h
    exact ih s2 s1 (fun e1 he1 => hall e1 (List.mem_cons_of_mem _ he1))
      ((step_frame s s2 e h2).2.2.2.2 (hall e (List.mem_cons_self _ _)) hv) h

theorem run_stays_visible (es : List Event) :
    ∀ s s1 : State, (∀ e ∈ es, e.hideTriggering = false) → s.isVisible = true →
      run s es = Except.ok s1 → s1.isVisible = true := by
  induction es with
  | nil =>
    intro s s1 _ hv h
    simp only [run, pure, Except.pure] at h
    injection h with h
    rw [← h]; exact hv
  | cons e es ih =>
    intro s s1 hall hv h
    obtain ⟨s2, h2⟩ := step_total s e
    rw [run_cons s s2 e es h2] at h
    exact ih s2 s1 (fun e1 he1 => hall e1 (List.mem_cons_of_mem _ he1))
      ((step_frame s s2 e h2).2.2.2.1 (hall e (List.mem_cons_self _ _)) hv) h

theorem step_keeps_init_timer (s s1 : State) (e : Event) (hs : step s e = Except.ok s1)
    (hne : e ≠ Event.timer Timer.init) (hin : Timer.init ∈ s.timers) :
    Timer.init ∈ s1.timers := by
  cases e with
  | mousemove x y n1 n2 =>
    obtain ⟨s2, h2, _⟩ := onMouseMove_trail s x y n1 n2
    cases hc : s.cursor with
    | none =>
      rw [step, onMouseMove_none s hc] at hs
      injection hs with hs
      subst hs
      split_ifs <;> simp [createTrail, hin]
    | some el =>
      rw [step, onMouseMove_some s el hc] at hs
      injection hs with hs
      subst hs
      split_ifs <;> simp [createTrail, hin]
  | timer t =>
    cases t with
    | init => exact absurd rfl hne
    | removeTrail id =>
      simp only [step, fireTimer, pure, Except.pure] at hs
      split_ifs at hs <;> injection hs with hs <;> subst hs
      · have hne2 : Timer.init ≠ Timer.removeTrail id := by simp
        exact (List.mem_erase_of_ne hne2).2 hin
      · exact hin
  | _ =>
    cases hc : s.cursor <;>
    simp [step, onMouseDown, onMouseUp, onMouseOver, onMouseOut,
        onVisibilityChange, animate, showCursor, hide, showLoading, hideLoading,
        toggleTrail, destroy, member, hc, bind, Except.bind, pure, Except.pure] at hs <;>
    (try split_ifs at hs) <;>
    (first | (injection hs with hs; subst hs) | subst hs) <;>
    simp_all

theorem run_keeps_init_timer (es : List Event) :
    ∀ s s1 : State, Event.timer Timer.init ∉ es → Timer.init ∈ s.timers →
      s.cursor.isSome = true → run s es = Except.ok s1 →
      Timer.init ∈ s1.timers ∧ s1.cursor.isSome = true := by
  induction es with
  | nil =>
    intro s s1 _ hin hc h
    simp only [run, pure, Except.pure] at h
    injection h with h
    rw [← h]; exact ⟨hin, hc⟩
  | cons e es ih =>
    intro s s1 hnot hin hc h
    obtain ⟨s2, h2⟩ := step_total s e
    rw [run_cons s s2 e es h2] at h
    have hne : e ≠ Event.timer Timer.init := fun he => hnot (he ▸ List.mem_cons_self _ _)
    exact ih s2 s1 (fun hm => hnot (List.mem_cons_of_mem _ hm))
      (step_keeps_init_timer s s2 e h2 hne hin)
      (by rw [(step_frame s s2 e h2).2.1]; exact hc) h

theorem init_timer_shows (s : State) (hin : Timer.init ∈ s.timers)
    (hc : s.cursor.isSome = true) :
    ∃ s1, step s (Event.timer Timer.init) = Except.ok s1 ∧ s1.isVisible = true := by
  obtain ⟨el, hel⟩ := Option.isSome_iff_exists.1 hc
  have hstep : step s (Event.timer Timer.init) =
      showCursor { s with timers := s.timers.erase Timer.init } := by
    simp only [step, if_pos hin, fireTimer]
  rw [hstep, showCursor_some { s with timers := s.timers.erase Timer.init } el hel]
  refine ⟨_, rfl, ?_⟩
  split_ifs with hv
  · exact hv
  · rfl

/-- C8, as stated, fails: a `mousemove` handled before the 100 ms init timer fires makes the
controller visible. -/
theorem visible_before_init_timer_counterexample :
    ¬ (∀ (es : List Event) (s1 : State), Event.timer Timer.init ∉ es →
        run state0 es = Except.ok s1 → s1.isVisible = false) := by
  intro h
  have h1 := h [Event.mousemove 3 4 1000 1000] state1 (by decide) rfl
  exact absurd h1 (by decide)

/-- C8, amended: right after `initCursor` the controller is hidden and stays hidden through
any events other than `mousemove`, `mouseenter`, a page-visible `visibilitychange`, a `show()`
call and the firing of the init timer; and when the init timer fires (after any events that do
not contain its firing) the controller is visible, and stays visible through any later events
other than `mouseleave`, a page-hidden `visibilitychange` and a `hide()` call. -/
theorem visibility_around_init_timer (doc : Document) (global : GlobalRef) (hs hh : Bool)
    (s0 : State) (h0 : initCursor doc global hs hh = Except.ok s0) :
    s0.isVisible = false ∧
    (∀ es : List Event, (∀ e ∈ es, e.showTriggering = false) →
      ∃ s1, run s0 es = Except.ok s1 ∧ s1.isVisible = false) ∧
    (∀ pre post : List Event, Event.timer Timer.init ∉ pre →
      (∀ e ∈ post, e.hideTriggering = false) →
      ∃ s1, run s0 (pre ++ Event.timer Timer.init :: post) = Except.ok s1 ∧
        s1.isVisible = true) := by
  rw [initCursor_eq] at h0
  injection h0 with h0
  have hv0 : s0.isVisible = false := by rw [← h0]
  have ht0 : Timer.init ∈ s0.timers := by rw [← h0]; simp
  have hc0 : s0.cursor.isSome = true := by rw [← h0]; rfl
  refine ⟨hv0, ?_, ?_⟩
  · intro es hall
    obtain ⟨s1, h1⟩ := run_total es s0
    exact ⟨s1, h1, run_stays_hidden es s0 s1 hall hv0 h1⟩
  · intro pre post hpre hpost
    obtain ⟨s, hrun⟩ := run_total pre s0
    obtain ⟨hin, hc⟩ := run_keeps_init_timer pre s0 s hpre ht0 hc0 hrun
    obtain ⟨s2, h2, hv2⟩ := init_timer_shows s hin hc
    obtain ⟨s1, h1⟩ := run_total post s2
    refine ⟨s1, ?_, run_stays_visible post s2 s1 hpost hv2 h1⟩
    rw [run_append pre s0 s _ hrun, run_cons s s2 _ post h2]
    exact h1

theorem visibility_around_init_timer_witness :
    state0.isVisible = false ∧
    (∀ es : List Event, (∀ e ∈ es, e.showTriggering = false) →
      ∃ s1, run state0 es = Except.ok s1 ∧ s1.isVisible = false) ∧
    (∀ pre post : List Event, Event.timer Timer.init ∉ pre →
      (∀ e ∈ post, e.hideTriggering = false) →
      ∃ s1, run state0 (pre ++ Event.timer Timer.init :: post) = Except.ok s1 ∧
        s1.isVisible = true) :=
  visibility_around_init_timer doc0 GlobalRef.undefined false false state0 rfl

end XploreonCursor
